import Mathlib

/-
Verification development for the Insurance-Fraud-Detection-ML repository.

The embedding covers the two source files that carry the core behavior:

* `api/main.py` — the serving facade: the `ClaimData` request schema, the
  feature-vector construction, the risk-level banding, the message and
  rounding logic of `predict_fraud`, and the model-not-loaded rejection.
* `src/model.py` — `FraudDetectionModel`: `preprocess_data` (label encoding,
  `fillna` imputation, standard scaling), `save_model` / `load_model`.

Modelling conventions:
* Python floats are modelled as `ℚ` (the code performs only comparisons,
  affine arithmetic and exact round-tripping on the values the claims touch).
* numpy's square root (used inside `StandardScaler` to turn a variance into
  a scale) is irrational in general, so every definition that needs it takes
  an explicit `sqrtQ : ℚ → ℚ` parameter; the theorems quantify over it, so
  they hold in particular for the true square root.  `StandardScaler`
  replaces a zero standard deviation by `1`, which is modelled exactly.
* A pandas `DataFrame` is a list of named columns (`Table`), a cell being a
  rational, a missing value (`NaN`) or a string.  A column has pandas dtype
  `object` exactly when it holds at least one string cell.
* Python assignment/aliasing inside `preprocess_data` is made explicit with
  `PEnv`: the frame object the caller passed in, the frame the local name
  `X` currently denotes, and whether the two are the same object.  In-place
  column writes (`X[col] = ...`) mutate the caller's frame only while the
  two are aliased; `X = X.copy()` and `X = X.fillna(...)` rebind the local
  name to a fresh object.
* The pickled artifact is exactly what `joblib.dump` receives, namely
  `self.model`; `joblib`'s serialisation round-trip is modelled as the
  identity.
* sklearn raises when `transform` sees feature names differing from the ones
  seen at `fit` time, and when a value cannot be converted to a float;
  string-to-float conversion is modelled for the non-negative integer
  literals that occur in the development via `String.toNat?`.
-/

set_option autoImplicit false

namespace InsuranceFraud

/-! ## Serving facade (`api/main.py`) -/

/-- Request schema of the `/predict` endpoint (`ClaimData` in `api/main.py`).
Pydantic checks only the field types; there are no range constraints. -/
structure ClaimData where
  claim_amount : ℚ
  claim_age : ℤ
  claim_type : String
  claimant_age : ℤ
  policy_duration : ℚ
  monthly_premium : ℚ
  witnesses : ℤ
  police_report : ℤ
  injury_claim : ℤ
  property_claim : ℤ
  vehicle_claim : ℤ
deriving DecidableEq

/-- The unpickled sklearn classifier as the serving code uses it: an opaque
object exposing `predict` and `predict_proba` (row 0 of the latter is the
pair of class-0 and class-1 probabilities). -/
structure SkClassifier where
  predict : List ℚ → ℤ
  predict_proba : List ℚ → ℚ × ℚ

/-- Response schema of the `/predict` endpoint. -/
structure PredictionResponse where
  fraud_detected : Bool
  fraud_probability : ℚ
  risk_level : String
  message : String
deriving DecidableEq

/-- Python's `str.lower` on one character (the inputs here are ASCII, where
`lower` adds 32 to the code point of an upper-case letter). -/
def charLower (c : Char) : Char :=
  if 65 ≤ c.toNat ∧ c.toNat ≤ 90 then Char.ofNat (c.toNat + 32) else c

/-- Python's `str.lower`, character by character. -/
def pyLower (s : String) : String := ⟨s.data.map charLower⟩

/-- The three one-hot claim-type indicator entries built in `predict_fraud`
(lines 131-133 of `api/main.py`): `1 if claim.claim_type.lower() == t else 0`
for `t` in `auto`, `home`, `health`. -/
def claimTypeFlags (s : String) : ℚ × ℚ × ℚ :=
  (if pyLower s = "auto" then 1 else 0,
   if pyLower s = "home" then 1 else 0,
   if pyLower s = "health" then 1 else 0)

/-- The feature vector `predict_fraud` passes to the classifier
(lines 120-134 of `api/main.py`), in the exact order of the source. -/
def featureVector (c : ClaimData) : List ℚ :=
  [c.claim_amount,
   (c.claim_age : ℚ),
   (c.claimant_age : ℚ),
   c.policy_duration,
   c.monthly_premium,
   (c.witnesses : ℚ),
   (c.police_report : ℚ),
   (c.injury_claim : ℚ),
   (c.property_claim : ℚ),
   (c.vehicle_claim : ℚ),
   (claimTypeFlags c.claim_type).1,
   (claimTypeFlags c.claim_type).2.1,
   (claimTypeFlags c.claim_type).2.2]

/-- Risk banding of `predict_fraud` (lines 141-146 of `api/main.py`). -/
def riskLevel (p : ℚ) : String :=
  if p < 3 / 10 then "Low"
  else if p < 7 / 10 then "Medium"
  else "High"

/-- Round a rational to the nearest integer, ties to even — the rounding
Python's `round` and `format` apply to the exact value of a float. -/
def roundHalfEven (q : ℚ) : ℤ :=
  let f := q.floor
  let r := q - (f : ℚ)
  if r < 1 / 2 then f
  else if 1 / 2 < r then f + 1
  else if f % 2 = 0 then f else f + 1

/-- Python's `round(x, 4)` used on the probability in the response. -/
def round4 (q : ℚ) : ℚ :=
  (roundHalfEven (q * 10000) : ℚ) / 10000

/-- Python's fixed one-decimal formatting used in the message f-strings. -/
def fmt1 (q : ℚ) : String :=
  let n := roundHalfEven (q * 10)
  let s := toString (n.natAbs / 10) ++ "." ++ toString (n.natAbs % 10)
  if n < 0 then "-" ++ s else s

/-- The body of the `/predict` endpoint (`predict_fraud` in `api/main.py`).
The global `model` is `none` until the startup hook has unpickled the
artifact; in that case the request is rejected with HTTP 500 and detail
"Model not loaded" (lines 115-116).  With a loaded model the body is a total
computation over the feature vector, so the `except`-branch at line 162 is
unreachable and the endpoint answers with a verdict. -/
def predict_fraud (model : Option SkClassifier) (claim : ClaimData) :
    Except (ℕ × String) PredictionResponse :=
  match model with
  | none => Except.error (500, "Model not loaded")
  | some m =>
    let features := featureVector claim
    let prediction := m.predict features
    let probability := (m.predict_proba features).2
    let risk_level := riskLevel probability
    let fraud_detected : Bool := prediction == 1
    let message :=
      if fraud_detected then
        "⚠️ Fraud Alert! Confidence: " ++ fmt1 (probability * 100) ++ "%"
      else
        "✅ Claim appears legitimate. Confidence: " ++ fmt1 ((1 - probability) * 100) ++ "%"
    Except.ok ⟨fraud_detected, round4 probability, risk_level, message⟩

/-- Discriminator for `Except` results (success versus rejected request). -/
def exceptOk {ε α : Type} : Except ε α → Bool
  | Except.ok _ => true
  | Except.error _ => false

/-! ## Data frames (pandas, as used by `src/model.py`) -/

/-- One cell of a data frame: a numeric value, a missing value (`NaN`),
or a string. -/
inductive Cell where
  | num (q : ℚ)
  | na
  | str (s : String)
deriving DecidableEq

/-- A named column of a data frame. -/
structure Col where
  name : String
  cells : List Cell
deriving DecidableEq

/-- A data frame: an ordered list of named columns. -/
abbrev Table := List Col

/-- A column has pandas dtype `object` when it holds a string cell; these are
the columns `X.select_dtypes(include=['object'])` picks out. -/
def Col.isObject (c : Col) : Bool :=
  c.cells.any fun x => match x with
    | Cell.str _ => true
    | _ => false

/-- The string `astype(str)` produces for a cell (`NaN` prints as "nan"). -/
def cellToStr : Cell → String
  | Cell.num q => toString q
  | Cell.na => "nan"
  | Cell.str s => s

/-- The numeric value of a cell, if it is numeric. -/
def cellNum : Cell → Option ℚ
  | Cell.num q => some q
  | _ => none

/-! ## Label encoding (`sklearn.preprocessing.LabelEncoder`) -/

/-- Insert a string into a sorted list, keeping it sorted. -/
def insertSorted (s : String) : List String → List String
  | [] => [s]
  | t :: ts => if s ≤ t then s :: t :: ts else t :: insertSorted s ts

/-- Sort a list of strings ascending (insertion sort). -/
def sortStrings : List String → List String
  | [] => []
  | s :: ss => insertSorted s (sortStrings ss)

/-- `LabelEncoder.fit`: the classes are the sorted distinct values
(`numpy.unique` of the column). -/
def leFitClasses (vals : List String) : List String :=
  sortStrings vals.dedup

/-- Look a column name up in the `label_encoders` dict. -/
def lookupLE (les : List (String × List String)) (n : String) :
    Option (List String) :=
  (les.find? fun p => p.1 == n).map fun p => p.2

/-- Store a fitted encoder under a column name in the `label_encoders` dict
(`self.label_encoders[col] = le`). -/
def insertLE : List (String × List String) → String → List String →
    List (String × List String)
  | [], n, cs => [(n, cs)]
  | p :: ps, n, cs => if p.1 = n then (n, cs) :: ps else p :: insertLE ps n cs

/-! ## Standard scaling (`sklearn.preprocessing.StandardScaler`) -/

/-- Numeric parse of a string, as numpy's float conversion behaves on the
non-negative integer literals occurring here; any other string fails. -/
def strVal (s : String) : Option ℚ :=
  (s.toNat?).map fun n => (n : ℚ)

/-- Convert a cell for the scaler: `NaN` is kept (the scaler ignores it),
a string must parse as a number or the conversion raises. -/
def numVal : Cell → Except String (Option ℚ)
  | Cell.num q => Except.ok (some q)
  | Cell.na => Except.ok none
  | Cell.str s =>
    match strVal s with
    | some q => Except.ok (some q)
    | none => Except.error ("could not convert string to float: " ++ s)

/-- Convert a whole column for the scaler. -/
def convertCol (c : Col) : Except String (List (Option ℚ)) :=
  c.cells.mapM numVal

/-- NaN-ignoring mean of a converted column (`0` for an all-NaN column,
where sklearn stores NaN; no theorem depends on that corner). -/
def optMean (xs : List (Option ℚ)) : ℚ :=
  let ns := xs.reduceOption
  if ns.length = 0 then 0 else ns.sum / (ns.length : ℚ)

/-- NaN-ignoring population variance of a converted column. -/
def optVar (xs : List (Option ℚ)) : ℚ :=
  let ns := xs.reduceOption
  if ns.length = 0 then 0
  else (ns.map fun x => (x - optMean xs) ^ 2).sum / (ns.length : ℚ)

/-- The per-column scale: the square root of the variance, except that a
zero standard deviation is replaced by `1`
(sklearn's `_handle_zeros_in_scale`). -/
def scaleOf (sqrtQ : ℚ → ℚ) (v : ℚ) : ℚ :=
  if v = 0 then 1 else sqrtQ v

/-- Fitted scaler state: the feature names seen at fit time and the
per-column mean and scale. -/
structure ScalerState where
  names : List String
  means : List ℚ
  scales : List ℚ
deriving DecidableEq

/-- Column-major scaled output matrix (`None` marks a propagated NaN). -/
abbrev Mat := List (List (Option ℚ))

/-- Standardize converted columns with given means and scales. -/
def applyScale (cols : Mat) (means scales : List ℚ) : Mat :=
  (cols.zip (means.zip scales)).map fun p =>
    p.1.map fun x? => x?.map fun x => (x - p.2.1) / p.2.2

/-- `StandardScaler.fit_transform`: convert, record names, means and scales,
and standardize. -/
def scalerFitTransform (sqrtQ : ℚ → ℚ) (X : Table) :
    Except String (ScalerState × Mat) :=
  match X.mapM convertCol with
  | Except.error e => Except.error e
  | Except.ok cols =>
    let means := cols.map optMean
    let scales := cols.map fun col => scaleOf sqrtQ (optVar col)
    Except.ok (⟨X.map Col.name, means, scales⟩, applyScale cols means scales)

/-- `StandardScaler.transform`: the feature names must match the ones seen at
fit time (sklearn raises otherwise), every cell must convert, and the frozen
fit-time statistics are applied. -/
def scalerTransform (st : ScalerState) (X : Table) : Except String Mat :=
  if X.map Col.name = st.names then
    match X.mapM convertCol with
    | Except.error e => Except.error e
    | Except.ok cols => Except.ok (applyScale cols st.means st.scales)
  else
    Except.error "The feature names should match those that were passed during fit"

/-! ## Missing-value imputation (`X.fillna(X.mean(numeric_only=True))`) -/

/-- The mean pandas computes for a numeric column: the mean of the non-NaN
cells, or nothing when there are none. -/
def colMeanCells (cells : List Cell) : Option ℚ :=
  let ns := cells.filterMap cellNum
  if ns.length = 0 then none else some (ns.sum / (ns.length : ℚ))

/-- `X.fillna(X.mean(numeric_only=True))`: in every numeric column with at
least one present value, replace each `NaN` by the mean of that very
column of `X`; object columns and all-NaN columns are untouched. -/
def fillnaTable (X : Table) : Table :=
  X.map fun c =>
    if c.isObject then c
    else
      match colMeanCells c.cells with
      | none => c
      | some m =>
        ⟨c.name, c.cells.map fun x =>
          match x with
          | Cell.na => Cell.num m
          | y => y⟩

/-! ## Aliasing environment for `preprocess_data` -/

/-- The aliasing state of the local name `X` inside `preprocess_data`:
`caller` is the frame object the caller passed in, `loc` the frame the local
name currently denotes, and `aliased` records whether they are the same
object (true exactly until `X = X.copy()` runs). -/
structure PEnv where
  caller : Table
  loc : Table
  aliased : Bool

/-- Replace the cells of the column called `n`. -/
def setCol (X : Table) (n : String) (cells : List Cell) : Table :=
  X.map fun c => if c.name = n then ⟨c.name, cells⟩ else c

/-- An in-place column write `X[col] = ...`: it mutates the object the local
name denotes, hence the caller's frame too while the two are aliased. -/
def setColEnv (e : PEnv) (n : String) (cells : List Cell) : PEnv :=
  ⟨if e.aliased then setCol e.loc n cells else e.caller,
   setCol e.loc n cells, e.aliased⟩

/-- `X = X.copy()`: the local name now denotes a fresh object with the same
value; the caller's frame is no longer aliased. -/
def copyEnv (e : PEnv) : PEnv := ⟨e.caller, e.loc, false⟩

/-- Rebinding `X = f(X)` to a freshly built frame (`fillna` returns a new
object). -/
def rebindEnv (e : PEnv) (t : Table) : PEnv := ⟨e.caller, t, false⟩

/-! ## `FraudDetectionModel` (`src/model.py`) -/

/-- The mutable state of a `FraudDetectionModel` instance.  An unfitted
`StandardScaler` is `none` (calling `transform` on it raises
`NotFittedError`). -/
structure FDM where
  random_state : ℤ
  model : Option SkClassifier
  scaler : Option ScalerState
  label_encoders : List (String × List String)
  feature_columns : Option (List String)

/-- A freshly constructed `FraudDetectionModel(random_state=42)`. -/
def initFDM : FDM := ⟨42, none, none, [], none⟩

/-- The fit-path loop over the categorical columns: each is re-encoded in
place with a freshly fitted `LabelEncoder`, which is recorded in
`label_encoders`. -/
def fitEncodeCols : List (String × List String) → PEnv → List String →
    List (String × List String) × PEnv
  | les, e, [] => (les, e)
  | les, e, n :: ns =>
    match e.loc.find? fun c => c.name == n with
    | none => fitEncodeCols les e ns
    | some c =>
      let vals := c.cells.map cellToStr
      let classes := leFitClasses vals
      let codes := vals.map fun v =>
        Cell.num (((classes.findIdx? fun t => t == v).getD 0 : ℕ) : ℚ)
      fitEncodeCols (insertLE les n classes) (setColEnv e n codes) ns

/-- The serve-path loop over the categorical columns (lines 47-49 of
`src/model.py`): a column with a recorded encoder is transformed — raising
on a value outside the fitted classes — while a column without one is
silently left untouched (the `if col in self.label_encoders` test has no
`else` branch).  An error carries the environment at raise time. -/
def serveEncodeCols : List (String × List String) → PEnv → List String →
    Except (String × PEnv) PEnv
  | _, e, [] => Except.ok e
  | les, e, n :: ns =>
    match e.loc.find? fun c => c.name == n with
    | none => serveEncodeCols les e ns
    | some c =>
      match lookupLE les n with
      | none => serveEncodeCols les e ns
      | some classes =>
        let vals := c.cells.map cellToStr
        match vals.mapM fun v => classes.findIdx? fun t => t == v with
        | none => Except.error ("y contains previously unseen labels", e)
        | some codes =>
          serveEncodeCols les (setColEnv e n (codes.map fun k : ℕ => Cell.num (k : ℚ))) ns

/-- The environment an encode-loop outcome leaves behind. -/
def errEnvOf : Except (String × PEnv) PEnv → PEnv
  | Except.ok e => e
  | Except.error p => p.2

/-- `FraudDetectionModel.preprocess_data(X, fit)` (lines 33-60 of
`src/model.py`), with the caller's frame tracked explicitly.  Returns the
result (`X_scaled, X.columns.tolist()` or the raised error), the updated
instance state, and the frame the caller's reference points to after the
call. -/
def preprocess_data (self : FDM) (X : Table) (fit : Bool) (sqrtQ : ℚ → ℚ) :
    Except String (Mat × List String) × FDM × Table :=
  let e1 := copyEnv ⟨X, X, true⟩
  let catCols := (e1.loc.filter Col.isObject).map Col.name
  if fit then
    let r := fitEncodeCols self.label_encoders e1 catCols
    let e3 := rebindEnv r.2 (fillnaTable r.2.loc)
    let names := e3.loc.map Col.name
    let self1 : FDM :=
      { self with label_encoders := r.1, feature_columns := some names }
    match scalerFitTransform sqrtQ e3.loc with
    | Except.error err => (Except.error err, self1, e3.caller)
    | Except.ok sm =>
      (Except.ok (sm.2, names), { self1 with scaler := some sm.1 }, e3.caller)
  else
    match serveEncodeCols self.label_encoders e1 catCols with
    | Except.error p => (Except.error p.1, self, p.2.caller)
    | Except.ok e2 =>
      let e3 := rebindEnv e2 (fillnaTable e2.loc)
      match self.scaler with
      | none =>
        (Except.error "This StandardScaler instance is not fitted yet", self, e3.caller)
      | some st =>
        match scalerTransform st e3.loc with
        | Except.error err => (Except.error err, self, e3.caller)
        | Except.ok M =>
          (Except.ok (M, e3.loc.map Col.name), self, e3.caller)

/-- `FraudDetectionModel.save_model` (line 122 of `src/model.py`): the dumped
artifact is exactly `self.model` — nothing else is serialized. -/
def save_model (m : FDM) : Option SkClassifier := m.model

/-- `FraudDetectionModel.load_model`: `joblib.load` returns the dumped
object (the serialisation round-trip is the identity). -/
def load_model (a : Option SkClassifier) : Option SkClassifier := a

/-! ## Spec-worded comparison pipeline for the imputation claim -/

/-- The training-time mean the fitted scaler froze for a column name. -/
def frozenMeanOf (st : ScalerState) (n : String) : Option ℚ :=
  match st.names.findIdx? fun t => t == n with
  | none => none
  | some i => st.means.get? i

/-- Stated from the spec's words (§4.1) for comparison with the code:
impute each missing numeric value with the column's training-time mean
frozen in the fitted scaler state. -/
def fillnaFrozen (st : ScalerState) (X : Table) : Table :=
  X.map fun c =>
    if c.isObject then c
    else
      match frozenMeanOf st c.name with
      | none => c
      | some m =>
        ⟨c.name, c.cells.map fun x =>
          match x with
          | Cell.na => Cell.num m
          | y => y⟩

/-- Stated from the spec's words (§4.1) for comparison with the code: the
serve-time pipeline in which imputation uses the frozen training-time means
instead of the statistics of the table being encoded. -/
def preprocessFrozenFill (self : FDM) (X : Table) :
    Except String (Mat × List String) :=
  let e1 := copyEnv ⟨X, X, true⟩
  let catCols := (e1.loc.filter Col.isObject).map Col.name
  match serveEncodeCols self.label_encoders e1 catCols with
  | Except.error p => Except.error p.1
  | Except.ok e2 =>
    match self.scaler with
    | none => Except.error "This StandardScaler instance is not fitted yet"
    | some st =>
      let X2 := fillnaFrozen st e2.loc
      match scalerTransform st X2 with
      | Except.error err => Except.error err
      | Except.ok M => Except.ok (M, X2.map Col.name)

/-! ## Concrete instances used by the theorems -/

/-- A rational stand-in square root for instantiating the `sqrtQ`
parameter at concrete inputs whose variances are perfect squares. -/
def idQ : ℚ → ℚ := fun q => q

/-- A concrete classifier: every claim scored class 0 with class-1
probability 0. -/
def constClassifier : SkClassifier :=
  ⟨fun _ => 0, fun _ => (1, 0)⟩

/-- The scenario claim of spec §8. -/
def exampleClaim : ClaimData :=
  ⟨5000, 30, "auto", 45, 5, 100, 1, 1, 0, 1, 1⟩

/-- A claim violating the spec's range invariants: negative claim amount,
negative witness count, claimant age far outside a human range. -/
def invalidClaim : ClaimData :=
  ⟨-5000, 30, "auto", 500, 5, 100, -3, 1, 0, 1, 1⟩

/-- The verdict `predict_fraud` computes with `constClassifier`. -/
def constVerdict : PredictionResponse :=
  ⟨false, 0, "Low", "✅ Claim appears legitimate. Confidence: 100.0%"⟩

/-- Modelled from the spec: the training dataset and the script invoking
`FraudDetectionModel.train` are not part of the repository.  This table
follows spec §3's `ClaimRecord` schema — eleven fields with `claim_type` a
single categorical column — and §6's serving input, "a record with exactly
the fields listed in §3", as the training-time pre-image of the encoder. -/
def trainingTable : Table :=
  [⟨"claim_amount", [Cell.num 5000, Cell.num 1200]⟩,
   ⟨"claim_age_days", [Cell.num 30, Cell.num 7]⟩,
   ⟨"claim_type", [Cell.str "auto", Cell.str "home"]⟩,
   ⟨"claimant_age", [Cell.num 45, Cell.num 33]⟩,
   ⟨"policy_duration_years", [Cell.num 5, Cell.num 2]⟩,
   ⟨"monthly_premium", [Cell.num 100, Cell.num 80]⟩,
   ⟨"witness_count", [Cell.num 1, Cell.num 0]⟩,
   ⟨"police_report_filed", [Cell.num 1, Cell.num 0]⟩,
   ⟨"injury_claim", [Cell.num 0, Cell.num 1]⟩,
   ⟨"property_claim", [Cell.num 1, Cell.num 0]⟩,
   ⟨"vehicle_claim", [Cell.num 1, Cell.num 0]⟩]

/-- The column order `preprocess_data` fixes when fitted on the training
schema. -/
def trainingColumnsFit : List String :=
  ["claim_amount", "claim_age_days", "claim_type", "claimant_age",
   "policy_duration_years", "monthly_premium", "witness_count",
   "police_report_filed", "injury_claim", "property_claim", "vehicle_claim"]

/-- The instance state after fitting the preprocessing on the training
table. -/
def fittedFDM (sqrtQ : ℚ → ℚ) : FDM :=
  (preprocess_data initFDM trainingTable true sqrtQ).2.1

/-- A one-column training table whose column is constant 10: fit-time mean
10, variance 0, hence scale 1. -/
def meanTrainTable : Table := [⟨"a", [Cell.num 10, Cell.num 10]⟩]

/-- The instance state after fitting on `meanTrainTable`. -/
def meanFDM : FDM := (preprocess_data initFDM meanTrainTable true idQ).2.1

/-- A serve-time batch with a missing value: the batch mean of column `a`
is 2, while the fit-time mean frozen in `meanFDM` is 10. -/
def meanBatch : Table := [⟨"a", [Cell.na, Cell.num 2]⟩]

/-- A one-column numeric training table (values 1 and 3: mean 2,
variance 1, scale 1). -/
def witTrainTable : Table := [⟨"witnesses", [Cell.num 1, Cell.num 3]⟩]

/-- The instance state after fitting on `witTrainTable`; its
`label_encoders` dict is empty. -/
def witFDM : FDM := (preprocess_data initFDM witTrainTable true idQ).2.1

/-- A serve-time batch in which `witnesses` arrives as an object column of
numeric strings — a categorical column the fitted state has no encoder
for. -/
def witBatch : Table := [⟨"witnesses", [Cell.str "1", Cell.str "3"]⟩]

/-- An instance holding a fitted encoder state alongside its classifier. -/
def pairedFDM : FDM :=
  ⟨42, some constClassifier, some ⟨["a"], [0], [1]⟩,
   [("claim_type", ["auto", "health", "home"])], some ["a"]⟩

/-- An instance with the same classifier but a blank encoder state. -/
def blankFDM : FDM :=
  ⟨42, some constClassifier, none, [], none⟩

/-! ## Helper lemmas -/

theorem setColEnv_false (e : PEnv) (n : String) (cds : List Cell)
    (h : e.aliased = false) :
    setColEnv e n cds = ⟨e.caller, setCol e.loc n cds, false⟩ := by
  simp [setColEnv, h]

theorem fitEncodeCols_env (ns : List String) :
    ∀ (les : List (String × List String)) (e : PEnv), e.aliased = false →
      (fitEncodeCols les e ns).2.caller = e.caller ∧
      (fitEncodeCols les e ns).2.aliased = false := by
  induction ns with
  | nil => intro les e h; exact ⟨rfl, h⟩
  | cons n ns ih =>
    intro les e h
    simp only [fitEncodeCols]
    split
    · exact ih les e h
    · rw [setColEnv_false e n _ h]
      exact ih _ _ rfl

theorem serveEncodeCols_env (ns : List String) :
    ∀ (les : List (String × List String)) (e : PEnv), e.aliased = false →
      (errEnvOf (serveEncodeCols les e ns)).caller = e.caller ∧
      (errEnvOf (serveEncodeCols les e ns)).aliased = false := by
  induction ns with
  | nil => intro les e h; exact ⟨rfl, h⟩
  | cons n ns ih =>
    intro les e h
    simp only [serveEncodeCols]
    split
    · exact ih les e h
    · split
      · exact ih les e h
      · split
        · exact ⟨rfl, h⟩
        · rw [setColEnv_false e n _ h]
          exact ih _ _ rfl

/-! ## Claim theorems -/

/-- C2: the risk level returned by scoring is determined by fixed half-open
bands of the classifier's probability — Low below 0.30, Medium from 0.30 up
to but excluding 0.70, High from 0.70 on; in particular 0.30 maps to Medium
and 0.70 maps to High, and the verdict's `risk_level` field is exactly this
banding of the class-1 probability the classifier returns on the feature
vector. -/
theorem risk_level_bands (p : ℚ) (m : SkClassifier) (c : ClaimData)
    (v : PredictionResponse) :
    (p < 3 / 10 → riskLevel p = "Low") ∧
    (3 / 10 ≤ p → p < 7 / 10 → riskLevel p = "Medium") ∧
    (7 / 10 ≤ p → riskLevel p = "High") ∧
    riskLevel (3 / 10) = "Medium" ∧
    riskLevel (7 / 10) = "High" ∧
    (predict_fraud (some m) c = Except.ok v →
      v.risk_level = riskLevel (m.predict_proba (featureVector c)).2) := by
  refine ⟨?_, ?_, ?_, by norm_num [riskLevel], by norm_num [riskLevel], ?_⟩
  · intro h
    simp only [riskLevel]
    rw [if_pos h]
  · intro h1 h2
    simp only [riskLevel]
    rw [if_neg (not_lt.mpr h1), if_pos h2]
  · intro h
    simp only [riskLevel]
    rw [if_neg (not_lt.mpr (le_trans (by norm_num) h)), if_neg (not_lt.mpr h)]
  · intro h
    simp only [predict_fraud] at h
    injection h with h'
    rw [← h']

/-- Check of `risk_level_bands` at concrete probabilities, with the band
hypotheses discharged numerically and the verdict tie discharged on the
spec §8 scenario claim. -/
theorem risk_level_bands_check :
    riskLevel (1 / 5) = "Low" ∧ riskLevel (1 / 2) = "Medium" ∧
    riskLevel (4 / 5) = "High" ∧ riskLevel (3 / 10) = "Medium" ∧
    riskLevel (7 / 10) = "High" ∧
    constVerdict.risk_level =
      riskLevel ((constClassifier.predict_proba (featureVector exampleClaim)).2) :=
  ⟨(risk_level_bands (1 / 5) constClassifier exampleClaim constVerdict).1 (by norm_num),
   (risk_level_bands (1 / 2) constClassifier exampleClaim constVerdict).2.1
     (by norm_num) (by norm_num),
   (risk_level_bands (4 / 5) constClassifier exampleClaim constVerdict).2.2.1 (by norm_num),
   (risk_level_bands (1 / 5) constClassifier exampleClaim constVerdict).2.2.2.1,
   (risk_level_bands (1 / 5) constClassifier exampleClaim constVerdict).2.2.2.2.1,
   (risk_level_bands (1 / 5) constClassifier exampleClaim constVerdict).2.2.2.2.2
     (by with_unfolding_all rfl)⟩

/-- C3: the three claim-type indicator entries are computed case-insensitively
from the request's `claim_type` string — a recognized type sets exactly the
matching flag to 1, any other string yields all three flags 0 — and scoring
never fails on account of the claim type: with a loaded model every request
is answered. -/
theorem claim_type_flags_spec (s : String) (m : SkClassifier) (c : ClaimData) :
    (pyLower s ≠ "auto" → pyLower s ≠ "home" → pyLower s ≠ "health" →
      claimTypeFlags s = (0, 0, 0)) ∧
    (pyLower s = "auto" → claimTypeFlags s = (1, 0, 0)) ∧
    (pyLower s = "home" → claimTypeFlags s = (0, 1, 0)) ∧
    (pyLower s = "health" → claimTypeFlags s = (0, 0, 1)) ∧
    exceptOk (predict_fraud (some m) c) = true := by
  refine ⟨?_, ?_, ?_, ?_, ?_⟩
  · intro h1 h2 h3
    simp only [claimTypeFlags]
    rw [if_neg h1, if_neg h2, if_neg h3]
  · intro h; simp only [claimTypeFlags, h]; decide
  · intro h; simp only [claimTypeFlags, h]; decide
  · intro h; simp only [claimTypeFlags, h]; decide
  · simp [predict_fraud, exceptOk]

/-- Check of `claim_type_flags_spec` on concrete mixed-case strings,
including the spec §8 unrecognized type `scooter`. -/
theorem claim_type_flags_check :
    claimTypeFlags "SCOOTER" = (0, 0, 0) ∧ claimTypeFlags "Auto" = (1, 0, 0) ∧
    claimTypeFlags "HOME" = (0, 1, 0) ∧ claimTypeFlags "HeAlTh" = (0, 0, 1) ∧
    exceptOk (predict_fraud (some constClassifier) exampleClaim) = true :=
  ⟨(claim_type_flags_spec "SCOOTER" constClassifier exampleClaim).1
     (by decide) (by decide) (by decide),
   (claim_type_flags_spec "Auto" constClassifier exampleClaim).2.1 (by decide),
   (claim_type_flags_spec "HOME" constClassifier exampleClaim).2.2.1 (by decide),
   (claim_type_flags_spec "HeAlTh" constClassifier exampleClaim).2.2.2.1 (by decide),
   (claim_type_flags_spec "SCOOTER" constClassifier exampleClaim).2.2.2.2⟩

/-- C4: with no artifact loaded, scoring rejects the request with the
model-unavailable condition (HTTP 500, "Model not loaded") instead of
returning a verdict or crashing; equivalently, scoring answers with a
verdict exactly when a model is loaded. -/
theorem model_unavailable (mo : Option SkClassifier) (c : ClaimData) :
    predict_fraud none c = Except.error (500, "Model not loaded") ∧
    (exceptOk (predict_fraud mo c) = true ↔ mo.isSome = true) := by
  refine ⟨rfl, ?_⟩
  cases mo <;> simp [predict_fraud, exceptOk]

/-- C7 counterexample: a claim with a negative claim amount, a negative
witness count and a claimant age of 500 is not rejected — the serving
facade scores it and returns a verdict. -/
theorem out_of_range_claim_scored :
    predict_fraud (some constClassifier) invalidClaim = Except.ok constVerdict := by
  with_unfolding_all rfl

/-- C7 amended: the request schema type-checks fields only; no range
constraint exists, so every claim — out-of-range values included — is
scored to a verdict, and the raw field values enter the feature vector
unclamped. -/
theorem no_range_validation (m : SkClassifier) (c : ClaimData) :
    exceptOk (predict_fraud (some m) c) = true ∧
    (featureVector c).get? 0 = some c.claim_amount ∧
    (featureVector c).get? 2 = some (c.claimant_age : ℚ) ∧
    (featureVector c).get? 5 = some (c.witnesses : ℚ) :=
  ⟨by simp [predict_fraud, exceptOk], rfl, rfl, rfl⟩

/-- C5 counterexample: two instances with the same classifier but different
fitted encoder states (label encoders and scaler statistics) persist to the
same artifact, so the artifact cannot contain the encoder's fit state — only
the classifier is saved. -/
theorem artifact_lacks_fit_state :
    save_model pairedFDM = save_model blankFDM ∧
    pairedFDM.label_encoders ≠ blankFDM.label_encoders ∧
    pairedFDM.scaler ≠ blankFDM.scaler :=
  ⟨rfl, by decide, by decide⟩

/-- C5 amended: persisting stores exactly the classifier; reloading returns
it unchanged, so a serving facade holding the reloaded artifact returns
verdicts identical to one holding the pre-persistence classifier — but the
encoder's fit state is not part of the artifact. -/
theorem artifact_roundtrip_classifier (m : FDM) (c : ClaimData) :
    load_model (save_model m) = m.model ∧
    predict_fraud (load_model (save_model m)) c = predict_fraud m.model c :=
  ⟨rfl, rfl⟩

/-- C8: encoding is deterministic — two runs of the serving-time encoding on
equal inputs against the same fitted state produce identical results, both
for the table pipeline of `preprocess_data` and for the serving facade's
feature vector. -/
theorem encoding_two_run_equal (st : FDM) (X1 X2 : Table) (c1 c2 : ClaimData)
    (sqrtQ : ℚ → ℚ) (hX : X1 = X2) (hc : c1 = c2) :
    preprocess_data st X1 false sqrtQ = preprocess_data st X2 false sqrtQ ∧
    featureVector c1 = featureVector c2 := by
  subst hX; subst hc; exact ⟨rfl, rfl⟩

/-- Check of `encoding_two_run_equal` at a concrete fitted state, batch and
claim. -/
theorem encoding_two_run_equal_check :
    preprocess_data witFDM witBatch false idQ =
      preprocess_data witFDM witBatch false idQ ∧
    featureVector exampleClaim = featureVector exampleClaim :=
  encoding_two_run_equal witFDM witBatch witBatch exampleClaim exampleClaim idQ rfl rfl

/-- C10: `preprocess_data` never mutates the frame the caller passed in, on
the fit path and on the serve path alike — `X = X.copy()` runs before any
in-place column write, so the caller's frame object is unchanged when the
call returns. -/
theorem preprocess_input_unchanged (self : FDM) (X : Table) (fit : Bool)
    (sqrtQ : ℚ → ℚ) :
    (preprocess_data self X fit sqrtQ).2.2 = X := by
  cases fit with
  | true =>
    simp only [preprocess_data, copyEnv, rebindEnv, if_true]
    have h := fitEncodeCols_env ((List.filter Col.isObject X).map Col.name)
      self.label_encoders ⟨X, X, false⟩ rfl
    cases hft : scalerFitTransform sqrtQ
        (fillnaTable (fitEncodeCols self.label_encoders ⟨X, X, false⟩
          ((List.filter Col.isObject X).map Col.name)).2.loc) with
    | error err => simpa [hft] using h.1
    | ok sm => simpa [hft] using h.1
  | false =>
    simp only [preprocess_data, copyEnv, rebindEnv, if_false]
    have h := serveEncodeCols_env ((List.filter Col.isObject X).map Col.name)
      self.label_encoders ⟨X, X, false⟩ rfl
    cases hs : serveEncodeCols self.label_encoders ⟨X, X, false⟩
        ((List.filter Col.isObject X).map Col.name) with
    | error p => rw [hs] at h; simpa [hs, errEnvOf] using h.1
    | ok e2 =>
      rw [hs] at h
      simp only [errEnvOf] at h
      cases hsc : self.scaler with
      | none => simpa [hs, hsc] using h.1
      | some st =>
        cases hst : scalerTransform st (fillnaTable e2.loc) with
        | error err => simpa [hs, hsc, hst] using h.1
        | ok M => simpa [hs, hsc, hst] using h.1

/-- C1: the serving facade's encoded vector does not match the column layout
fixed when the encoder was fitted — the serving vector always has 13
entries, while fitting `preprocess_data` on the spec's training schema fixes
11 feature columns (with `claim_type` one label-encoded column in place), so
no index-for-index correspondence exists; this holds for every claim and
every square-root realisation of the scaler. -/
theorem serving_training_dimension_mismatch (sqrtQ : ℚ → ℚ) (c : ClaimData) :
    (featureVector c).length = 13 ∧
    (fittedFDM sqrtQ).feature_columns = some trainingColumnsFit ∧
    trainingColumnsFit.length = 11 ∧
    ∀ cols, (fittedFDM sqrtQ).feature_columns = some cols →
      (featureVector c).length ≠ cols.length := by
  have h2 : (fittedFDM sqrtQ).feature_columns = some trainingColumnsFit := by
    with_unfolding_all rfl
  refine ⟨rfl, h2, rfl, ?_⟩
  intro cols hc
  rw [h2] at hc
  injection hc with hc'
  rw [← hc']
  show (13 : ℕ) ≠ (11 : ℕ)
  decide

/-- C6 counterexample: the fitted state froze a training-time mean of 10 for
column `a`, yet encoding a batch whose column `a` is `[NaN, 2]` imputes the
batch's own mean 2 — the scaled output is `[-8, -8]`, whereas imputing the
frozen mean (the spec-worded pipeline) would give `[0, -8]`. -/
theorem imputation_frozen_mean_refuted :
    meanFDM.scaler = some ⟨["a"], [10], [1]⟩ ∧
    (preprocess_data meanFDM meanBatch false idQ).1 =
      Except.ok ([[some (-8), some (-8)]], ["a"]) ∧
    preprocessFrozenFill meanFDM meanBatch =
      Except.ok ([[some 0, some (-8)]], ["a"]) ∧
    ([[some ((-8 : ℚ)), some (-8)]] : Mat) ≠ [[some 0, some (-8)]] :=
  ⟨by with_unfolding_all rfl, by with_unfolding_all rfl, by with_unfolding_all rfl,
   by with_unfolding_all decide⟩

/-- C6 amended: in every table being encoded, each missing value of a
numeric column with at least one present value is replaced by the mean of
that very column of the current table — a statistic of the batch, not a
fit-time quantity. -/
theorem imputation_batch_mean (X : Table) (j i : ℕ) (c : Col) (m : ℚ)
    (hj : X.get? j = some c) (hobj : c.isObject = false)
    (hm : colMeanCells c.cells = some m)
    (hi : c.cells.get? i = some Cell.na) :
    ∃ c', (fillnaTable X).get? j = some c' ∧ c'.name = c.name ∧
      c'.cells.get? i = some (Cell.num m) ∧
      m = (c.cells.filterMap cellNum).sum /
        ((c.cells.filterMap cellNum).length : ℚ) := by
  refine ⟨⟨c.name, c.cells.map fun x => match x with
    | Cell.na => Cell.num m
    | y => y⟩, ?_, rfl, ?_, ?_⟩
  · have hj' : X[j]? = some c := by rw [← List.get?_eq_getElem?]; exact hj
    simp [fillnaTable, List.getElem?_map, hj', hobj, hm]
  · rw [List.get?_map, hi]
    rfl
  · simp only [colMeanCells] at hm
    by_cases h0 : (c.cells.filterMap cellNum).length = 0
    · rw [if_pos h0] at hm; cases hm
    · rw [if_neg h0] at hm
      injection hm with hm'
      exact hm'.symm

/-- Check of `imputation_batch_mean` on the concrete batch whose column `a`
is `[NaN, 2]`: the missing cell becomes the batch mean 2. -/
theorem imputation_batch_mean_check :
    ∃ c', (fillnaTable meanBatch).get? 0 = some c' ∧ c'.name = "a" ∧
      c'.cells.get? 0 = some (Cell.num 2) ∧
      (2 : ℚ) = ((⟨"a", [Cell.na, Cell.num 2]⟩ : Col).cells.filterMap cellNum).sum /
        ((((⟨"a", [Cell.na, Cell.num 2]⟩ : Col).cells.filterMap cellNum).length : ℕ) : ℚ) :=
  imputation_batch_mean meanBatch 0 0 ⟨"a", [Cell.na, Cell.num 2]⟩ 2
    rfl rfl (by with_unfolding_all rfl) (by with_unfolding_all rfl)

/-- C9 counterexample: the fitted state `witFDM` has an empty encoder dict,
the batch's `witnesses` column is categorical (object dtype) and unmapped,
yet encoding with `fit=False` succeeds — the numeric-string column is passed
through the encoding loop untransformed and then scaled as numbers. -/
theorem unmapped_column_call_succeeds :
    witFDM.label_encoders = [] ∧
    (witBatch.filter Col.isObject).map Col.name = ["witnesses"] ∧
    (preprocess_data witFDM witBatch false idQ).1 =
      Except.ok ([[some (-1), some 1]], ["witnesses"]) :=
  ⟨by with_unfolding_all rfl, rfl, by with_unfolding_all rfl⟩

/-- C9 amended: the serve-path encoding loop leaves every column whose name
has no fitted label encoder untouched — it is passed through untransformed
rather than rejected; the call can only fail later, in the scaler, and not
because the mapping is missing. -/
theorem unmapped_column_untransformed (les : List (String × List String))
    (ns : List String) (e e' : PEnv) (j : ℕ) (c : Col) :
    serveEncodeCols les e ns = Except.ok e' →
    e.loc.get? j = some c →
    lookupLE les c.name = none →
    e'.loc.get? j = some c := by
  induction ns generalizing les e with
  | nil =>
    intro hok hj hle
    simp only [serveEncodeCols] at hok
    injection hok with h
    rw [← h]
    exact hj
  | cons n ns ih =>
    intro hok hj hle
    simp only [serveEncodeCols] at hok
    split at hok
    · exact ih les e hok hj hle
    · split at hok
      · exact ih les e hok hj hle
      · rename_i classes hl
        split at hok
        · cases hok
        · have hne : c.name ≠ n := by
            intro hEq
            rw [hEq, hl] at hle
            cases hle
          refine ih les _ hok ?_ hle
          show (setCol e.loc n _).get? j = some c
          simp only [setCol, List.get?_map, hj, Option.map_some']
          rw [if_neg hne]

/-- Check of `unmapped_column_untransformed` on the concrete batch: with an
empty encoder dict, the object column `witnesses` survives the loop
unchanged. -/
theorem unmapped_column_untransformed_check :
    (⟨witBatch, witBatch, false⟩ : PEnv).loc.get? 0 =
      some ⟨"witnesses", [Cell.str "1", Cell.str "3"]⟩ :=
  unmapped_column_untransformed [] ["witnesses"] ⟨witBatch, witBatch, false⟩
    ⟨witBatch, witBatch, false⟩ 0 ⟨"witnesses", [Cell.str "1", Cell.str "3"]⟩
    rfl rfl rfl

end InsuranceFraud
